import Mathlib

/-!
Shallow embedding of the grade/statistics computation core of the
academic-tracking dashboard (enhanced_calculations.py, utils/calculations2.py,
utils/data_manager.py), together with theorems checking the specification
claims against it.

Modelling conventions:
- pandas DataFrames become a list of row records plus Boolean flags recording
  which optional columns are present (column presence in pandas is a property
  of the whole frame, not of single rows);
- Python floats become rationals; a possibly-NaN scalar becomes an Option
  rational, with none standing for NaN;
- calendar dates become integer day numbers; a due-date string that may fail
  to parse becomes an Option integer, with none standing for an unparseable
  string; the current wall-clock instant (datetime.now, pd.Timestamp.now)
  becomes an explicit integer parameter of every function that reads it;
- a Python function that may raise to its caller returns Except String.
-/

namespace Predubud

/-- One carry-mark row as the analyzers see it (columns of the carry-marks
frame produced by get_carry_marks_df). -/
structure CarryMark where
  course_code : String
  earned : ℚ
  max_possible : ℚ
  percentage : ℚ
  date_added : Int
  deriving Repr, DecidableEq

/-- A carry-marks frame: rows plus presence flags for the optional
percentage and date_added columns. -/
structure CarryMarksDF where
  rows : List CarryMark
  hasPercentage : Bool
  hasDateAdded : Bool
  deriving Repr, DecidableEq

/-- One assignment row (columns of the assignments frame produced by
get_assignments_df); due_date is none when the stored string does not
parse as a date. -/
structure Assignment where
  title : String
  course_code : String
  due_date : Option Int
  status : String
  deriving Repr, DecidableEq

/-- One row of the derived per-course statistics frame, as consumed by
calculate_weighted_gpa. -/
structure CourseStat where
  letter_grade : String
  carry_weight : ℚ
  deriving Repr, DecidableEq

/-- The derived course-statistics frame with presence flags for the two
columns calculate_weighted_gpa reads. -/
structure CourseStatsDF where
  rows : List CourseStat
  hasLetterGrade : Bool
  hasCarryWeight : Bool
  deriving Repr, DecidableEq

/-- Mean of a list of rationals, as pandas Series.mean on an all-numeric
column: sum divided by length. -/
def listMean (l : List ℚ) : ℚ := l.sum / l.length

/-- calculate_carry_percentage from enhanced_calculations.py lines 5-25:
return 0 on an empty frame; filter rows to the given course code and
return 0 when none match; when the percentage column exists return its
mean over the matching rows; otherwise return the earned sum over the
max_possible sum times 100, with 0 when the max_possible sum is 0. -/
def calculate_carry_percentage (course_code : String) (df : CarryMarksDF) : ℚ :=
  if df.rows = [] then 0
  else
    let course_marks := df.rows.filter (fun m => m.course_code = course_code)
    if course_marks = [] then 0
    else if df.hasPercentage then
      listMean (course_marks.map (fun m => m.percentage))
    else
      let total_earned := (course_marks.map (fun m => m.earned)).sum
      let total_max := (course_marks.map (fun m => m.max_possible)).sum
      if total_max = 0 then 0
      else (total_earned / total_max) * 100

/-- calculate_final_exam_requirement from enhanced_calculations.py lines
27-36: 0 when exam_weight is 0, otherwise the required exam percentage
clamped into the interval from 0 to 100. -/
def calculate_final_exam_requirement (target_grade carry_percentage carry_weight exam_weight : ℚ) : ℚ :=
  if exam_weight = 0 then 0
  else
    let carry_contribution := (carry_percentage / 100) * (carry_weight / 100) * 100
    let required_exam_contribution := target_grade - carry_contribution
    let required_exam_percentage := (required_exam_contribution / exam_weight) * 100
    max 0 (min 100 required_exam_percentage)

/-- get_grade_letter from enhanced_calculations.py lines 67-90: the input
is an Option rational, none standing for NaN; NaN or negative input gives
F, and otherwise the descending threshold ladder applies. -/
def get_grade_letter (percentage : Option ℚ) : String :=
  match percentage with
  | none => "F"
  | some p =>
    if p < 0 then "F"
    else if p ≥ 90 then "A+"
    else if p ≥ 85 then "A"
    else if p ≥ 80 then "A-"
    else if p ≥ 75 then "B+"
    else if p ≥ 70 then "B"
    else if p ≥ 65 then "B-"
    else if p ≥ 60 then "C+"
    else if p ≥ 55 then "C"
    else if p ≥ 50 then "C-"
    else "F"

/-- Lookup in an association list with default 0, the embedding of
dict.get(key, 0.0). -/
def dictGet (s : String) : List (String × ℚ) → ℚ
  | [] => 0
  | (k, v) :: rest => if s = k then v else dictGet s rest

/-- The grade_points dictionary of calculate_weighted_gpa (lines 134-139). -/
def grade_points_table : List (String × ℚ) :=
  [("A+", 4), ("A", 4), ("A-", 37 / 10),
   ("B+", 33 / 10), ("B", 3), ("B-", 27 / 10),
   ("C+", 23 / 10), ("C", 2), ("C-", 17 / 10),
   ("F", 0), ("N/A", 0)]

/-- The grade-point lookup grade_points.get(letter, 0.0) of
calculate_weighted_gpa line 146. -/
def grade_points (s : String) : ℚ := dictGet s grade_points_table

/-- calculate_weighted_gpa from enhanced_calculations.py lines 128-151:
0 on an empty frame; the row loop accumulates points times weight and the
weight only when both the letter-grade and carry-weight columns are
present; the quotient is returned only when the accumulated weight is
strictly positive, otherwise 0. -/
def calculate_weighted_gpa (df : CourseStatsDF) : ℚ :=
  if df.rows = [] then 0
  else
    let use := df.hasLetterGrade && df.hasCarryWeight
    let total_points :=
      if use then (df.rows.map (fun r => grade_points r.letter_grade * r.carry_weight)).sum else 0
    let total_weight :=
      if use then (df.rows.map (fun r => r.carry_weight)).sum else 0
    if total_weight > 0 then total_points / total_weight else 0

/-- calculate_completion_rate from enhanced_calculations.py lines 118-126:
0 on an empty frame, otherwise the count of rows with completed status over
the total row count, times 100. -/
def calculate_completion_rate (rows : List Assignment) : ℚ :=
  if rows = [] then 0
  else
    let completed := (rows.filter (fun a => a.status = "completed")).length
    let total := rows.length
    if total > 0 then ((completed : ℚ) / total) * 100 else 0

/-- Stable insertion of an element into a list sorted by an integer key. -/
def insertByKey {α : Type} (key : α → Int) (x : α) : List α → List α
  | [] => [x]
  | y :: l => if key x ≤ key y then x :: y :: l else y :: insertByKey key x l

/-- Sorting by an integer key (the embedding of sort_values on a date or
numeric column). -/
def sortByKey {α : Type} (key : α → Int) (l : List α) : List α :=
  l.foldr (insertByKey key) []

/-- Slope of the degree-1 least-squares fit with x-values 0 to n-1 and the
given list as y-values: the closed form of np.polyfit(x, y, 1)[0]. -/
def lsSlope (y : List ℚ) : ℚ :=
  let n : ℚ := y.length
  let xs : List ℚ := (List.range y.length).map (fun i => (i : ℚ))
  let sx := xs.sum
  let sy := y.sum
  let sxx := (xs.map (fun v => v * v)).sum
  let sxy := (List.zipWith (fun a b => a * b) xs y).sum
  (n * sxy - sx * sy) / (n * sxx - sx * sx)

/-- Percentage derived on the fly from earned and max_possible, as the
(earned / max_possible * 100).fillna(0) derivation in get_performance_trend
line 161. The pandas expression gives NaN only for 0 over 0, which fillna
replaces with 0; a nonzero earned over a zero max_possible gives a float
infinity, which fillna leaves in place and which the rational model cannot
represent: that case is none here. -/
def derivedPercentage (m : CarryMark) : Option ℚ :=
  if m.max_possible = 0 then (if m.earned = 0 then some 0 else none)
  else some (m.earned / m.max_possible * 100)

/-- The derived percentage as a plain rational on the derivable region
(every row with max_possible nonzero or earned zero): the value
derivedPercentage takes there. -/
def finitePercentage (m : CarryMark) : ℚ :=
  if m.max_possible = 0 then 0 else m.earned / m.max_possible * 100

/-- get_performance_trend from enhanced_calculations.py lines 153-183:
fewer than 2 rows gives the insufficient-data label; a missing percentage
column is derived on the fly; a missing date_added column gives the no-date
label; otherwise the rows are sorted by date, the least-squares slope over
index positions is taken, and the label is chosen by comparing the slope
with 2 and -2. The result is some label wherever every percentage entering
the slope is a finite rational; it is none when an infinite derived
percentage (nonzero earned over zero max_possible, not replaced by
fillna(0)) reaches the slope computation, whose floating-point outcome the
rational model leaves undefined. -/
def get_performance_trend (df : CarryMarksDF) : Option String :=
  if df.rows = [] ∨ df.rows.length < 2 then some "Insufficient data"
  else
    let pct : CarryMark → Option ℚ :=
      fun m => if df.hasPercentage then some m.percentage else derivedPercentage m
    if ¬ df.hasDateAdded then some "No date information"
    else
      let sorted := sortByKey (fun m => m.date_added) df.rows
      let y := sorted.map pct
      if y.all Option.isSome then
        let ys := y.map (fun o => o.getD 0)
        if ys.length < 2 then some "Insufficient data"
        else
          let slope := lsSlope ys
          if slope > 2 then some "Improving"
          else if slope < -2 then some "Declining"
          else some "Stable"
      else none

/-- calculate_days_until_due from enhanced_calculations.py lines 92-100 at
day granularity: the due-date string either parses to a day number (some d)
or not (none); parse failure is caught and 0 is returned; otherwise the day
difference to the current instant is returned. -/
def calculate_days_until_due (due : Option Int) (now : Int) : Int :=
  match due with
  | some d => d - now
  | none => 0

/-- Loop body of the overdue and near-due counting in analytics_tab
(enhanced_analytics.py lines 454-464): a non-pending assignment is ignored;
for a pending one the date parse is attempted inside a try block and a
failure is skipped; an overdue assignment (negative day difference) bumps
the first counter and one due within 7 days bumps the second. -/
def stepOverdue (today : Int) (acc : Nat × Nat) (a : Assignment) : Nat × Nat :=
  if a.status = "pending" then
    match a.due_date with
    | some d =>
      let days_diff := d - today
      if days_diff < 0 then (acc.1 + 1, acc.2)
      else if days_diff ≤ 7 then (acc.1, acc.2 + 1)
      else acc
    | none => acc
  else acc

/-- The overdue and near-due counting of analytics_tab
(enhanced_analytics.py lines 450-464): fold of the loop body over the
assignment rows starting from zero counters. -/
def count_overdue_upcoming (rows : List Assignment) (today : Int) : Nat × Nat :=
  rows.foldl (stepOverdue today) (0, 0)

/-- Week of a day number (the embedding of to_period with weekly frequency). -/
def weekOf (d : Int) : Int := Int.fdiv d 7

/-- get_weekly_workload from enhanced_calculations.py lines 102-116: empty
input gives an empty frame; pd.to_datetime on the due_date column raises on
any unparseable date (no errors argument is passed), which the function does
not catch, so a single bad date makes the whole call fail; otherwise
assignments are grouped by week, with a total count and a pending count per
week. -/
def get_weekly_workload (rows : List Assignment) :
    Except String (List (Int × Nat × Nat)) :=
  if rows = [] then .ok []
  else if rows.all (fun a => a.due_date.isSome) then
    let dated := rows.filterMap (fun a => a.due_date.map (fun d => (weekOf d, a)))
    let weeks := (sortByKey id (dated.map (fun p => p.1))).dedup
    .ok (weeks.map (fun w =>
      (w, (dated.filter (fun p => p.1 = w)).length,
          (dated.filter (fun p => p.1 = w ∧ p.2.status = "pending")).length)))
  else .error "unparseable due_date"

/-- calculate_time_to_deadline from enhanced_calculations.py lines 220-234:
empty input or no pending assignment gives an empty frame; pd.to_datetime
raises on an unparseable due date (not caught); otherwise each pending
assignment is paired with its day difference to the current instant and the
list is sorted ascending by days remaining. -/
def calculate_time_to_deadline (rows : List Assignment) (now : Int) :
    Except String (List (Assignment × Int)) :=
  if rows = [] then .ok []
  else
    let pending := rows.filter (fun a => a.status = "pending")
    if pending = [] then .ok []
    else if pending.all (fun a => a.due_date.isSome) then
      let withDays := pending.filterMap (fun a => a.due_date.map (fun d => (a, d - now)))
      .ok (sortByKey (fun p => p.2) withDays)
    else .error "unparseable due_date"

/-- One course record of the record store (utils/data_manager.py). -/
structure Course where
  code : String
  name : String
  carry_weight : ℚ
  exam_weight : ℚ
  deriving Repr, DecidableEq

/-- A dependent record of the store (carry mark, assignment or final-exam
dict): delete_course reads only its course_code entry, through dict.get,
which yields none when the key is absent. -/
structure StoreRecord where
  course_code : Option String
  deriving Repr, DecidableEq

/-- The session-state record store: courses, carry marks, assignments and
final-exam records. -/
structure Store where
  courses : List Course
  carry_marks : List StoreRecord
  assignments : List StoreRecord
  final_exams : List StoreRecord
  deriving Repr, DecidableEq

/-- delete_course from utils/data_manager.py lines 201-209: with a valid
index, the course code at that index is looked up, every carry mark,
assignment and final-exam record whose course_code equals it is removed,
and the course itself is deleted; an out-of-range index changes nothing. -/
def delete_course (s : Store) (index : Nat) : Store :=
  if h : index < s.courses.length then
    let course_code := (s.courses.get ⟨index, h⟩).code
    { courses := s.courses.eraseIdx index
      carry_marks := s.carry_marks.filter (fun cm => cm.course_code ≠ some course_code)
      assignments := s.assignments.filter (fun a => a.course_code ≠ some course_code)
      final_exams := s.final_exams.filter (fun fe => fe.course_code ≠ some course_code) }
  else s

/-- Concrete carry-marks frame with percentages 60, 65, 70, 75 over four
increasing dates (the trend example of the specification). -/
def exTrendDF : CarryMarksDF :=
  { rows :=
      [ { course_code := "C1", earned := 12, max_possible := 20, percentage := 60, date_added := 0 },
        { course_code := "C1", earned := 13, max_possible := 20, percentage := 65, date_added := 1 },
        { course_code := "C1", earned := 14, max_possible := 20, percentage := 70, date_added := 2 },
        { course_code := "C1", earned := 15, max_possible := 20, percentage := 75, date_added := 3 } ],
    hasPercentage := true, hasDateAdded := true }

/-- Concrete carry-marks frame without a percentage column whose derived
percentages are 60, 65, 70, 75 over four increasing dates. -/
def exTrendDerivedDF : CarryMarksDF :=
  { rows :=
      [ { course_code := "C1", earned := 12, max_possible := 20, percentage := 0, date_added := 0 },
        { course_code := "C1", earned := 13, max_possible := 20, percentage := 0, date_added := 1 },
        { course_code := "C1", earned := 14, max_possible := 20, percentage := 0, date_added := 2 },
        { course_code := "C1", earned := 15, max_possible := 20, percentage := 0, date_added := 3 } ],
    hasPercentage := false, hasDateAdded := true }

/-- Concrete empty carry-marks frame (a frame built from an empty record
list has no columns). -/
def emptyMarksDF : CarryMarksDF :=
  { rows := [], hasPercentage := false, hasDateAdded := false }

/-- Concrete frame with one mark of 18 earned out of 20 and no percentage
column. -/
def singleMarkDF : CarryMarksDF :=
  { rows := [ { course_code := "C1", earned := 18, max_possible := 20, percentage := 0, date_added := 0 } ],
    hasPercentage := false, hasDateAdded := false }

/-- Concrete frame with one mark of 120 earned out of 100 and no percentage
column. -/
def overMarkDF : CarryMarksDF :=
  { rows := [ { course_code := "C1", earned := 120, max_possible := 100, percentage := 0, date_added := 0 } ],
    hasPercentage := false, hasDateAdded := false }

/-- Concrete frame whose percentage column holds the out-of-range value 120
for course X. -/
def overPctDF : CarryMarksDF :=
  { rows := [ { course_code := "X", earned := 120, max_possible := 100, percentage := 120, date_added := 0 } ],
    hasPercentage := true, hasDateAdded := true }

/-- Concrete two-row carry-marks frame without a date_added column. -/
def noDateDF : CarryMarksDF :=
  { rows :=
      [ { course_code := "C1", earned := 12, max_possible := 20, percentage := 60, date_added := 0 },
        { course_code := "C1", earned := 13, max_possible := 20, percentage := 65, date_added := 0 } ],
    hasPercentage := true, hasDateAdded := false }

/-- Concrete pending assignment whose due-date string does not parse. -/
def badAssignment : Assignment :=
  { title := "T", course_code := "C1", due_date := none, status := "pending" }

/-- Concrete pending assignment due on day 10. -/
def pendingAssignment : Assignment :=
  { title := "P", course_code := "C1", due_date := some 10, status := "pending" }

/-- Concrete two-assignment list: one completed, one pending. -/
def exAssignments : List Assignment :=
  [ { title := "A", course_code := "C1", due_date := some 10, status := "completed" },
    { title := "B", course_code := "C1", due_date := some 3, status := "pending" } ]

/-- Concrete course-statistics frame with both columns present. -/
def exStatsDF : CourseStatsDF :=
  { rows := [ { letter_grade := "A", carry_weight := 60 },
              { letter_grade := "B+", carry_weight := 40 } ],
    hasLetterGrade := true, hasCarryWeight := true }

/-- Concrete course-statistics frame whose weights sum to 0. -/
def zeroWeightStatsDF : CourseStatsDF :=
  { rows := [ { letter_grade := "A", carry_weight := 0 } ],
    hasLetterGrade := true, hasCarryWeight := true }

/-- Concrete store with one course and dependent records, some of them on
the course to be deleted. -/
def exStore : Store :=
  { courses := [ { code := "BSD 1323", name := "Storytelling", carry_weight := 60, exam_weight := 40 } ],
    carry_marks := [ { course_code := some "BSD 1323" }, { course_code := some "OTHER" } ],
    assignments := [ { course_code := some "BSD 1323" } ],
    final_exams := [ { course_code := none } ] }

/-- Proof-side restatement of the grade ladder directly as grade points: the
composition of get_grade_letter with the grade-point lookup. -/
def ladderPoints (p : ℚ) : ℚ :=
  if p < 0 then 0
  else if p ≥ 90 then 4
  else if p ≥ 85 then 4
  else if p ≥ 80 then 37 / 10
  else if p ≥ 75 then 33 / 10
  else if p ≥ 70 then 3
  else if p ≥ 65 then 27 / 10
  else if p ≥ 60 then 23 / 10
  else if p ≥ 55 then 2
  else if p ≥ 50 then 17 / 10
  else 0

/-- Proof-side step function: v beyond threshold t, else 0. -/
def stepVal (t v p : ℚ) : ℚ := if t ≤ p then v else 0

/-- Proof-side decomposition of the grade-point ladder as a sum of upward
steps, used for the monotonicity argument. -/
def stepSum (p : ℚ) : ℚ :=
  stepVal 50 (17/10) p + stepVal 55 (3/10) p + stepVal 60 (3/10) p + stepVal 65 (4/10) p +
    stepVal 70 (3/10) p + stepVal 75 (3/10) p + stepVal 80 (4/10) p + stepVal 85 (3/10) p


/-- Concrete frame with one matching mark whose max_possible is 0 and no
percentage column. -/
def zeroMaxDF : CarryMarksDF :=
  { rows := [ { course_code := "C1", earned := 0, max_possible := 0, percentage := 0, date_added := 0 } ],
    hasPercentage := false, hasDateAdded := false }

/-- Inserting with insertByKey grows the length by one. -/
theorem insertByKey_length {α : Type} (key : α → Int) (x : α) (l : List α) :
    (insertByKey key x l).length = l.length + 1 := by
  induction l with
  | nil => rfl
  | cons y t ih =>
    unfold insertByKey
    split_ifs <;> simp [ih]

/-- sortByKey preserves the length of the list. -/
theorem sortByKey_length {α : Type} (key : α → Int) (l : List α) :
    (sortByKey key l).length = l.length := by
  induction l with
  | nil => rfl
  | cons y t ih =>
    show (insertByKey key y (List.foldr (insertByKey key) [] t)).length = t.length + 1
    rw [insertByKey_length]
    exact congrArg (· + 1) ih

/-- dictGet stays inside the bounds satisfied by every value of the table. -/
theorem dictGet_bounds (s : String) (t : List (String × ℚ))
    (h : ∀ p ∈ t, 0 ≤ p.2 ∧ p.2 ≤ 4) : 0 ≤ dictGet s t ∧ dictGet s t ≤ 4 := by
  induction t with
  | nil => simp [dictGet]
  | cons p rest ih =>
    obtain ⟨k, v⟩ := p
    simp only [dictGet]
    split_ifs
    · exact h (k, v) (List.mem_cons_self _ _)
    · exact ih (fun q hq => h q (List.mem_cons_of_mem _ hq))

/-- Every grade-point value lies between 0 and 4. -/
theorem grade_points_bounds (s : String) : 0 ≤ grade_points s ∧ grade_points s ≤ 4 := by
  refine dictGet_bounds s grade_points_table ?_
  intro p hp
  fin_cases hp <;> norm_num


/-- Grade points of the letter assigned to a numeric percentage equal the
ladderPoints step function. -/
theorem gp_ggl (p : ℚ) : grade_points (get_grade_letter (some p)) = ladderPoints p := by
  simp only [get_grade_letter, ladderPoints]
  by_cases h1 : p < 0
  · simp only [if_pos h1]; rfl
  simp only [if_neg h1]
  by_cases h2 : p ≥ 90
  · simp only [if_pos h2]; rfl
  simp only [if_neg h2]
  by_cases h3 : p ≥ 85
  · simp only [if_pos h3]; rfl
  simp only [if_neg h3]
  by_cases h4 : p ≥ 80
  · simp only [if_pos h4]; rfl
  simp only [if_neg h4]
  by_cases h5 : p ≥ 75
  · simp only [if_pos h5]; rfl
  simp only [if_neg h5]
  by_cases h6 : p ≥ 70
  · simp only [if_pos h6]; rfl
  simp only [if_neg h6]
  by_cases h7 : p ≥ 65
  · simp only [if_pos h7]; rfl
  simp only [if_neg h7]
  by_cases h8 : p ≥ 60
  · simp only [if_pos h8]; rfl
  simp only [if_neg h8]
  by_cases h9 : p ≥ 55
  · simp only [if_pos h9]; rfl
  simp only [if_neg h9]
  by_cases h10 : p ≥ 50
  · simp only [if_pos h10]; rfl
  simp only [if_neg h10]
  rfl

/-- C1: calculate_final_exam_requirement returns 0 when exam_weight is 0 and
otherwise the specification formula (target minus carry_percentage over 100
times carry_weight, over exam_weight, times 100) clamped to the interval from
0 to 100; at target 70, carry percentage 80, carry weight 60, exam weight 40
it returns exactly 55. -/
theorem C1_final_exam_requirement_formula :
    (∀ t cp cw ew : ℚ,
      calculate_final_exam_requirement t cp cw ew =
        if ew = 0 then 0 else max 0 (min 100 ((t - cp / 100 * cw) / ew * 100))) ∧
    calculate_final_exam_requirement 70 80 60 40 = 55 := by
  constructor
  · intro t cp cw ew
    unfold calculate_final_exam_requirement
    split_ifs with h
    · rfl
    · ring_nf
  · unfold calculate_final_exam_requirement
    norm_num

/-- Membership in an insertByKey result is membership in the inserted
element or the list. -/
theorem insertByKey_mem {α : Type} (key : α → Int) (x a : α) (l : List α) :
    a ∈ insertByKey key x l ↔ a = x ∨ a ∈ l := by
  induction l with
  | nil => simp [insertByKey]
  | cons y t ih =>
    unfold insertByKey
    by_cases h : key x ≤ key y
    · rw [if_pos h]
      simp [List.mem_cons]
    · rw [if_neg h]
      simp only [List.mem_cons, ih]
      tauto

/-- sortByKey preserves membership. -/
theorem sortByKey_mem {α : Type} (key : α → Int) (l : List α) (a : α) :
    a ∈ sortByKey key l ↔ a ∈ l := by
  induction l with
  | nil => simp [sortByKey]
  | cons y t ih =>
    show a ∈ insertByKey key y (sortByKey key t) ↔ a ∈ y :: t
    rw [insertByKey_mem]
    simp [ih]

/-- On the derivable region the optional derived percentage is the finite
value. -/
theorem derivedPercentage_eq_some (m : CarryMark)
    (h : m.max_possible ≠ 0 ∨ m.earned = 0) :
    derivedPercentage m = some (finitePercentage m) := by
  unfold derivedPercentage finitePercentage
  rcases h with h | h
  · rw [if_neg h, if_neg h]
  · by_cases hm : m.max_possible = 0
    · rw [if_pos hm, if_pos h, if_pos hm]
    · rw [if_neg hm, if_neg hm]

/-- C2: on a carry-marks frame with a date column and at least 2 rows whose
percentages are present (percentage column) or derivable (computed from
earned and max_possible, with the 0-over-0 NaN filled as 0),
get_performance_trend sorts the rows by date, takes the least-squares slope
of the percentages against index positions 0 to n-1, and classifies slope
above 2 as Improving, below -2 as Declining and otherwise Stable; fewer
than 2 rows give the insufficient-data label, a frame with at least 2 rows
but no date column gives the no-date label, and percentages 60, 65, 70, 75
over 4 dates give Improving, whether stored or derived. -/
theorem C2_performance_trend :
    (∀ df : CarryMarksDF, df.hasPercentage = true → df.hasDateAdded = true →
      2 ≤ df.rows.length →
      get_performance_trend df =
        some (if lsSlope ((sortByKey (fun m => m.date_added) df.rows).map (fun m => m.percentage)) > 2
          then "Improving"
          else if lsSlope ((sortByKey (fun m => m.date_added) df.rows).map (fun m => m.percentage)) < -2
            then "Declining" else "Stable")) ∧
    (∀ df : CarryMarksDF, df.hasPercentage = false →
      (∀ m ∈ df.rows, m.max_possible ≠ 0 ∨ m.earned = 0) →
      df.hasDateAdded = true → 2 ≤ df.rows.length →
      get_performance_trend df =
        some (if lsSlope ((sortByKey (fun m => m.date_added) df.rows).map finitePercentage) > 2
          then "Improving"
          else if lsSlope ((sortByKey (fun m => m.date_added) df.rows).map finitePercentage) < -2
            then "Declining" else "Stable")) ∧
    (∀ df : CarryMarksDF, df.rows.length < 2 →
      get_performance_trend df = some "Insufficient data") ∧
    (∀ df : CarryMarksDF, 2 ≤ df.rows.length → df.hasDateAdded = false →
      get_performance_trend df = some "No date information") ∧
    get_performance_trend exTrendDF = some "Improving" ∧
    get_performance_trend exTrendDerivedDF = some "Improving" := by
  have hne2 : ∀ df : CarryMarksDF, 2 ≤ df.rows.length →
      ¬(df.rows = [] ∨ df.rows.length < 2) := by
    intro df hlen
    push_neg
    constructor
    · intro h0
      rw [h0] at hlen
      simp at hlen
    · omega
  have mainP : ∀ df : CarryMarksDF, df.hasPercentage = true → df.hasDateAdded = true →
      2 ≤ df.rows.length →
      get_performance_trend df =
        some (if lsSlope ((sortByKey (fun m => m.date_added) df.rows).map (fun m => m.percentage)) > 2
          then "Improving"
          else if lsSlope ((sortByKey (fun m => m.date_added) df.rows).map (fun m => m.percentage)) < -2
            then "Declining" else "Stable") := by
    intro df hp hd hlen
    unfold get_performance_trend
    rw [if_neg (hne2 df hlen)]
    simp only [hp, hd, if_true, not_true, ite_false]
    rw [if_pos (by
      apply List.all_eq_true.mpr
      intro o ho
      obtain ⟨m, hm, rfl⟩ := List.mem_map.mp ho
      rfl)]
    rw [List.map_map]
    simp only [Function.comp_def, Option.getD_some]
    rw [List.length_map, sortByKey_length]
    rw [if_neg (by omega)]
    split_ifs <;> rfl
  have mainD : ∀ df : CarryMarksDF, df.hasPercentage = false →
      (∀ m ∈ df.rows, m.max_possible ≠ 0 ∨ m.earned = 0) →
      df.hasDateAdded = true → 2 ≤ df.rows.length →
      get_performance_trend df =
        some (if lsSlope ((sortByKey (fun m => m.date_added) df.rows).map finitePercentage) > 2
          then "Improving"
          else if lsSlope ((sortByKey (fun m => m.date_added) df.rows).map finitePercentage) < -2
            then "Declining" else "Stable") := by
    intro df hp hder hd hlen
    have hderS : ∀ m ∈ sortByKey (fun m => m.date_added) df.rows,
        derivedPercentage m = some (finitePercentage m) := by
      intro m hm
      exact derivedPercentage_eq_some m (hder m ((sortByKey_mem _ _ _).mp hm))
    unfold get_performance_trend
    rw [if_neg (hne2 df hlen)]
    simp only [hp, hd, Bool.false_eq_true, if_false, not_true, ite_false]
    rw [if_pos (by
      apply List.all_eq_true.mpr
      intro o ho
      obtain ⟨m, hm, rfl⟩ := List.mem_map.mp ho
      rw [hderS m hm]
      rfl)]
    rw [List.map_map]
    rw [List.map_congr_left (fun m hm => by
      show (Option.getD (derivedPercentage m) 0) = finitePercentage m
      rw [hderS m hm]
      rfl)]
    rw [List.length_map, sortByKey_length]
    rw [if_neg (by omega)]
    split_ifs <;> rfl
  refine ⟨mainP, mainD, ?_, ?_, ?_, ?_⟩
  · intro df h
    unfold get_performance_trend
    rw [if_pos (Or.inr h)]
  · intro df hlen hd
    unfold get_performance_trend
    rw [if_neg (hne2 df hlen)]
    simp [hd]
  · rw [mainP exTrendDF rfl rfl (by norm_num [exTrendDF])]
    norm_num [exTrendDF, lsSlope, sortByKey, insertByKey, List.range, List.range.loop]
  · rw [mainD exTrendDerivedDF rfl
      (by
        intro m hm
        fin_cases hm <;> norm_num [exTrendDerivedDF])
      rfl (by norm_num [exTrendDerivedDF])]
    norm_num [exTrendDerivedDF, finitePercentage, lsSlope, sortByKey, insertByKey,
      List.range, List.range.loop]

/-- Witness for C2: the hypothesized parts applied to concrete frames, with
both a stored-percentage and a derived-percentage collection. -/
theorem C2_performance_trend_witness :
    get_performance_trend exTrendDF =
      some (if lsSlope ((sortByKey (fun m => m.date_added) exTrendDF.rows).map (fun m => m.percentage)) > 2
        then "Improving"
        else if lsSlope ((sortByKey (fun m => m.date_added) exTrendDF.rows).map (fun m => m.percentage)) < -2
          then "Declining" else "Stable") ∧
    get_performance_trend exTrendDerivedDF =
      some (if lsSlope ((sortByKey (fun m => m.date_added) exTrendDerivedDF.rows).map finitePercentage) > 2
        then "Improving"
        else if lsSlope ((sortByKey (fun m => m.date_added) exTrendDerivedDF.rows).map finitePercentage) < -2
          then "Declining" else "Stable") ∧
    get_performance_trend emptyMarksDF = some "Insufficient data" ∧
    get_performance_trend noDateDF = some "No date information" := by
  refine ⟨?_, ?_, ?_, ?_⟩
  · exact C2_performance_trend.1 exTrendDF rfl rfl (by norm_num [exTrendDF])
  · exact C2_performance_trend.2.1 exTrendDerivedDF rfl
      (by
        intro m hm
        fin_cases hm <;> norm_num [exTrendDerivedDF])
      rfl (by norm_num [exTrendDerivedDF])
  · exact C2_performance_trend.2.2.1 emptyMarksDF (by norm_num [emptyMarksDF])
  · exact C2_performance_trend.2.2.2.1 noDateDF (by norm_num [noDateDF]) rfl

/-- The ladder of grade points equals the step-sum decomposition. -/
theorem ladder_eq_stepSum (p : ℚ) : ladderPoints p = stepSum p := by
  unfold ladderPoints stepSum stepVal
  by_cases h1 : p < 0
  · rw [if_pos h1,
      if_neg (show ¬(50:ℚ) ≤ p by linarith), if_neg (show ¬(55:ℚ) ≤ p by linarith),
      if_neg (show ¬(60:ℚ) ≤ p by linarith), if_neg (show ¬(65:ℚ) ≤ p by linarith),
      if_neg (show ¬(70:ℚ) ≤ p by linarith), if_neg (show ¬(75:ℚ) ≤ p by linarith),
      if_neg (show ¬(80:ℚ) ≤ p by linarith), if_neg (show ¬(85:ℚ) ≤ p by linarith)]
    norm_num
  rw [if_neg h1]
  by_cases h2 : p ≥ 90
  · rw [if_pos h2,
      if_pos (show (50:ℚ) ≤ p by linarith), if_pos (show (55:ℚ) ≤ p by linarith),
      if_pos (show (60:ℚ) ≤ p by linarith), if_pos (show (65:ℚ) ≤ p by linarith),
      if_pos (show (70:ℚ) ≤ p by linarith), if_pos (show (75:ℚ) ≤ p by linarith),
      if_pos (show (80:ℚ) ≤ p by linarith), if_pos (show (85:ℚ) ≤ p by linarith)]
    norm_num
  rw [if_neg h2]
  by_cases h3 : p ≥ 85
  · rw [if_pos h3,
      if_pos (show (50:ℚ) ≤ p by linarith), if_pos (show (55:ℚ) ≤ p by linarith),
      if_pos (show (60:ℚ) ≤ p by linarith), if_pos (show (65:ℚ) ≤ p by linarith),
      if_pos (show (70:ℚ) ≤ p by linarith), if_pos (show (75:ℚ) ≤ p by linarith),
      if_pos (show (80:ℚ) ≤ p by linarith), if_pos (show (85:ℚ) ≤ p by linarith)]
    norm_num
  rw [if_neg h3]
  by_cases h4 : p ≥ 80
  · rw [if_pos h4,
      if_pos (show (50:ℚ) ≤ p by linarith), if_pos (show (55:ℚ) ≤ p by linarith),
      if_pos (show (60:ℚ) ≤ p by linarith), if_pos (show (65:ℚ) ≤ p by linarith),
      if_pos (show (70:ℚ) ≤ p by linarith), if_pos (show (75:ℚ) ≤ p by linarith),
      if_pos (show (80:ℚ) ≤ p by linarith), if_neg h3]
    norm_num
  rw [if_neg h4]
  by_cases h5 : p ≥ 75
  · rw [if_pos h5,
      if_pos (show (50:ℚ) ≤ p by linarith), if_pos (show (55:ℚ) ≤ p by linarith),
      if_pos (show (60:ℚ) ≤ p by linarith), if_pos (show (65:ℚ) ≤ p by linarith),
      if_pos (show (70:ℚ) ≤ p by linarith), if_pos (show (75:ℚ) ≤ p by linarith),
      if_neg h4, if_neg h3]
    norm_num
  rw [if_neg h5]
  by_cases h6 : p ≥ 70
  · rw [if_pos h6,
      if_pos (show (50:ℚ) ≤ p by linarith), if_pos (show (55:ℚ) ≤ p by linarith),
      if_pos (show (60:ℚ) ≤ p by linarith), if_pos (show (65:ℚ) ≤ p by linarith),
      if_pos (show (70:ℚ) ≤ p by linarith), if_neg h5, if_neg h4, if_neg h3]
    norm_num
  rw [if_neg h6]
  by_cases h7 : p ≥ 65
  · rw [if_pos h7,
      if_pos (show (50:ℚ) ≤ p by linarith), if_pos (show (55:ℚ) ≤ p by linarith),
      if_pos (show (60:ℚ) ≤ p by linarith), if_pos (show (65:ℚ) ≤ p by linarith),
      if_neg h6, if_neg h5, if_neg h4, if_neg h3]
    norm_num
  rw [if_neg h7]
  by_cases h8 : p ≥ 60
  · rw [if_pos h8,
      if_pos (show (50:ℚ) ≤ p by linarith), if_pos (show (55:ℚ) ≤ p by linarith),
      if_pos (show (60:ℚ) ≤ p by linarith), if_neg h7, if_neg h6, if_neg h5, if_neg h4, if_neg h3]
    norm_num
  rw [if_neg h8]
  by_cases h9 : p ≥ 55
  · rw [if_pos h9,
      if_pos (show (50:ℚ) ≤ p by linarith), if_pos (show (55:ℚ) ≤ p by linarith),
      if_neg h8, if_neg h7, if_neg h6, if_neg h5, if_neg h4, if_neg h3]
    norm_num
  rw [if_neg h9]
  by_cases h10 : p ≥ 50
  · rw [if_pos h10,
      if_neg h9, if_neg h8, if_neg h7, if_neg h6, if_neg h5, if_neg h4, if_neg h3]
    norm_num
  rw [if_neg h10, if_neg h9, if_neg h8, if_neg h7, if_neg h6, if_neg h5, if_neg h4, if_neg h3]
  norm_num

/-- A single upward step with nonnegative height is monotone. -/
theorem stepVal_mono (t v p q : ℚ) (hv : 0 ≤ v) (hpq : p ≤ q) :
    stepVal t v p ≤ stepVal t v q := by
  unfold stepVal
  by_cases h : t ≤ p
  · rw [if_pos h, if_pos (le_trans h hpq)]
  · rw [if_neg h]
    by_cases h2 : t ≤ q
    · rw [if_pos h2]
      exact hv
    · rw [if_neg h2]

/-- The step-sum decomposition is monotone. -/
theorem stepSum_mono (p q : ℚ) (hpq : p ≤ q) : stepSum p ≤ stepSum q := by
  unfold stepSum
  refine add_le_add (add_le_add (add_le_add (add_le_add (add_le_add (add_le_add (add_le_add
    ?_ ?_) ?_) ?_) ?_) ?_) ?_) ?_ <;> exact stepVal_mono _ _ _ _ (by norm_num) hpq


/-- C4: get_grade_letter implements the descending threshold ladder, with
NaN or negative input mapped to F; the listed concrete values hold. -/
theorem C4_grade_letter_ladder :
    get_grade_letter none = "F" ∧
    (∀ p : ℚ, p < 0 → get_grade_letter (some p) = "F") ∧
    (∀ p : ℚ, 90 ≤ p → get_grade_letter (some p) = "A+") ∧
    (∀ p : ℚ, 85 ≤ p → p < 90 → get_grade_letter (some p) = "A") ∧
    (∀ p : ℚ, 80 ≤ p → p < 85 → get_grade_letter (some p) = "A-") ∧
    (∀ p : ℚ, 75 ≤ p → p < 80 → get_grade_letter (some p) = "B+") ∧
    (∀ p : ℚ, 70 ≤ p → p < 75 → get_grade_letter (some p) = "B") ∧
    (∀ p : ℚ, 65 ≤ p → p < 70 → get_grade_letter (some p) = "B-") ∧
    (∀ p : ℚ, 60 ≤ p → p < 65 → get_grade_letter (some p) = "C+") ∧
    (∀ p : ℚ, 55 ≤ p → p < 60 → get_grade_letter (some p) = "C") ∧
    (∀ p : ℚ, 50 ≤ p → p < 55 → get_grade_letter (some p) = "C-") ∧
    (∀ p : ℚ, 0 ≤ p → p < 50 → get_grade_letter (some p) = "F") ∧
    get_grade_letter (some (89999 / 1000)) = "A" ∧
    get_grade_letter (some 90) = "A+" ∧
    get_grade_letter (some (-5)) = "F" := by
  refine ⟨rfl, ?_, ?_, ?_, ?_, ?_, ?_, ?_, ?_, ?_, ?_, ?_, ?_, ?_, ?_⟩
  · intro p h1
    simp only [get_grade_letter]
    rw [if_pos h1]
  · intro p h1
    simp only [get_grade_letter]
    rw [if_neg (show ¬p < 0 by linarith), if_pos (show p ≥ 90 from h1)]
  · intro p h1 h2
    simp only [get_grade_letter]
    rw [if_neg (show ¬p < 0 by linarith), if_neg (show ¬p ≥ 90 by linarith),
      if_pos (show p ≥ 85 from h1)]
  · intro p h1 h2
    simp only [get_grade_letter]
    rw [if_neg (show ¬p < 0 by linarith), if_neg (show ¬p ≥ 90 by linarith),
      if_neg (show ¬p ≥ 85 by linarith), if_pos (show p ≥ 80 from h1)]
  · intro p h1 h2
    simp only [get_grade_letter]
    rw [if_neg (show ¬p < 0 by linarith), if_neg (show ¬p ≥ 90 by linarith),
      if_neg (show ¬p ≥ 85 by linarith), if_neg (show ¬p ≥ 80 by linarith),
      if_pos (show p ≥ 75 from h1)]
  · intro p h1 h2
    simp only [get_grade_letter]
    rw [if_neg (show ¬p < 0 by linarith), if_neg (show ¬p ≥ 90 by linarith),
      if_neg (show ¬p ≥ 85 by linarith), if_neg (show ¬p ≥ 80 by linarith),
      if_neg (show ¬p ≥ 75 by linarith), if_pos (show p ≥ 70 from h1)]
  · intro p h1 h2
    simp only [get_grade_letter]
    rw [if_neg (show ¬p < 0 by linarith), if_neg (show ¬p ≥ 90 by linarith),
      if_neg (show ¬p ≥ 85 by linarith), if_neg (show ¬p ≥ 80 by linarith),
      if_neg (show ¬p ≥ 75 by linarith), if_neg (show ¬p ≥ 70 by linarith),
      if_pos (show p ≥ 65 from h1)]
  · intro p h1 h2
    simp only [get_grade_letter]
    rw [if_neg (show ¬p < 0 by linarith), if_neg (show ¬p ≥ 90 by linarith),
      if_neg (show ¬p ≥ 85 by linarith), if_neg (show ¬p ≥ 80 by linarith),
      if_neg (show ¬p ≥ 75 by linarith), if_neg (show ¬p ≥ 70 by linarith),
      if_neg (show ¬p ≥ 65 by linarith), if_pos (show p ≥ 60 from h1)]
  · intro p h1 h2
    simp only [get_grade_letter]
    rw [if_neg (show ¬p < 0 by linarith), if_neg (show ¬p ≥ 90 by linarith),
      if_neg (show ¬p ≥ 85 by linarith), if_neg (show ¬p ≥ 80 by linarith),
      if_neg (show ¬p ≥ 75 by linarith), if_neg (show ¬p ≥ 70 by linarith),
      if_neg (show ¬p ≥ 65 by linarith), if_neg (show ¬p ≥ 60 by linarith),
      if_pos (show p ≥ 55 from h1)]
  · intro p h1 h2
    simp only [get_grade_letter]
    rw [if_neg (show ¬p < 0 by linarith), if_neg (show ¬p ≥ 90 by linarith),
      if_neg (show ¬p ≥ 85 by linarith), if_neg (show ¬p ≥ 80 by linarith),
      if_neg (show ¬p ≥ 75 by linarith), if_neg (show ¬p ≥ 70 by linarith),
      if_neg (show ¬p ≥ 65 by linarith), if_neg (show ¬p ≥ 60 by linarith),
      if_neg (show ¬p ≥ 55 by linarith), if_pos (show p ≥ 50 from h1)]
  · intro p h1 h2
    simp only [get_grade_letter]
    rw [if_neg (show ¬p < 0 by linarith), if_neg (show ¬p ≥ 90 by linarith),
      if_neg (show ¬p ≥ 85 by linarith), if_neg (show ¬p ≥ 80 by linarith),
      if_neg (show ¬p ≥ 75 by linarith), if_neg (show ¬p ≥ 70 by linarith),
      if_neg (show ¬p ≥ 65 by linarith), if_neg (show ¬p ≥ 60 by linarith),
      if_neg (show ¬p ≥ 55 by linarith), if_neg (show ¬p ≥ 50 by linarith)]
  · norm_num [get_grade_letter]
  · norm_num [get_grade_letter]
  · norm_num [get_grade_letter]

/-- Witness for C4: the hypothesized ladder cases at concrete inputs. -/
theorem C4_grade_letter_ladder_witness :
    get_grade_letter (some 87) = "A" ∧
    get_grade_letter (some 92) = "A+" ∧
    get_grade_letter (some 52) = "C-" ∧
    get_grade_letter (some 10) = "F" ∧
    get_grade_letter (some (-3)) = "F" :=
  ⟨C4_grade_letter_ladder.2.2.2.1 87 (by norm_num) (by norm_num),
   C4_grade_letter_ladder.2.2.1 92 (by norm_num),
   C4_grade_letter_ladder.2.2.2.2.2.2.2.2.2.2.1 52 (by norm_num) (by norm_num),
   C4_grade_letter_ladder.2.2.2.2.2.2.2.2.2.2.2.1 10 (by norm_num) (by norm_num),
   C4_grade_letter_ladder.2.1 (-3) (by norm_num)⟩

/-- C10: the grade point of the letter grade is monotone in the percentage,
for non-NaN inputs. -/
theorem C10_grade_points_monotone :
    ∀ p q : ℚ, p ≤ q →
      grade_points (get_grade_letter (some p)) ≤ grade_points (get_grade_letter (some q)) := by
  intro p q hpq
  rw [gp_ggl, gp_ggl, ladder_eq_stepSum, ladder_eq_stepSum]
  exact stepSum_mono p q hpq

/-- Witness for C10: monotonicity applied at 47 and 88. -/
theorem C10_grade_points_monotone_witness :
    grade_points (get_grade_letter (some 47)) ≤ grade_points (get_grade_letter (some 88)) :=
  C10_grade_points_monotone 47 88 (by norm_num)



/-- Mean of a nonempty list of rationals between 0 and 100 is between 0 and
100. -/
theorem listMean_bounds (l : List ℚ) (hne : l ≠ [])
    (hb : ∀ x ∈ l, 0 ≤ x ∧ x ≤ 100) : 0 ≤ listMean l ∧ listMean l ≤ 100 := by
  have hlen : 0 < (l.length : ℚ) := by exact_mod_cast List.length_pos.mpr hne
  have hsum0 : 0 ≤ l.sum := List.sum_nonneg (fun x hx => (hb x hx).1)
  have hsum100 : l.sum ≤ (l.length : ℚ) * 100 := by
    have h1 : l.sum = (l.map id).sum := by rw [List.map_id]
    have h2 : (l.map id).sum ≤ (l.map (fun _ => (100:ℚ))).sum :=
      List.sum_le_sum (fun x hx => (hb x hx).2)
    have h3 : (l.map (fun _ => (100:ℚ))).sum = (l.length : ℚ) * 100 := by
      rw [List.map_const']
      rw [List.sum_replicate]
      simp [nsmul_eq_mul]
    rw [h1]
    rw [h3] at h2
    exact h2
  unfold listMean
  constructor
  · exact div_nonneg hsum0 (le_of_lt hlen)
  · rw [div_le_iff₀ hlen]
    linarith

/-- With both columns present or absent, nonnegative weights keep the
weighted GPA between 0 and 4. -/
theorem weighted_gpa_bounds :
    ∀ df : CourseStatsDF, (∀ r ∈ df.rows, 0 ≤ r.carry_weight) →
      0 ≤ calculate_weighted_gpa df ∧ calculate_weighted_gpa df ≤ 4 := by
  intro df hw
  unfold calculate_weighted_gpa
  by_cases h : df.rows = []
  · rw [if_pos h]
    norm_num
  rw [if_neg h]
  by_cases hu : (df.hasLetterGrade && df.hasCarryWeight) = true
  · simp only [hu, if_true]
    by_cases hpos : (df.rows.map (fun r => r.carry_weight)).sum > 0
    · rw [if_pos hpos]
      have hpts : 0 ≤ (df.rows.map (fun r => grade_points r.letter_grade * r.carry_weight)).sum := by
        apply List.sum_nonneg
        intro x hx
        obtain ⟨r, hr, rfl⟩ := List.mem_map.mp hx
        exact mul_nonneg (grade_points_bounds r.letter_grade).1 (hw r hr)
      constructor
      · exact div_nonneg hpts (le_of_lt hpos)
      · rw [div_le_iff₀ hpos]
        have key : (df.rows.map (fun r => grade_points r.letter_grade * r.carry_weight)).sum ≤
            (df.rows.map (fun r => 4 * r.carry_weight)).sum := by
          apply List.sum_le_sum
          intro r hr
          exact mul_le_mul_of_nonneg_right (grade_points_bounds r.letter_grade).2 (hw r hr)
        rw [List.sum_map_mul_left] at key
        exact key
    · rw [if_neg hpos]
      norm_num
  · simp only [if_neg hu]
    norm_num

/-- With row data inside the usual ranges, the carry percentage stays
between 0 and 100. -/
theorem carry_percentage_bounds :
    ∀ (code : String) (df : CarryMarksDF),
      (df.hasPercentage = true → ∀ m ∈ df.rows, 0 ≤ m.percentage ∧ m.percentage ≤ 100) →
      (df.hasPercentage = false → ∀ m ∈ df.rows, 0 ≤ m.earned ∧ m.earned ≤ m.max_possible) →
      0 ≤ calculate_carry_percentage code df ∧ calculate_carry_percentage code df ≤ 100 := by
  intro code df hbp hbe
  unfold calculate_carry_percentage
  by_cases h0 : df.rows = []
  · rw [if_pos h0]
    norm_num
  rw [if_neg h0]
  by_cases h1 : df.rows.filter (fun m => m.course_code = code) = []
  · rw [if_pos h1]
    norm_num
  rw [if_neg h1]
  by_cases hp : df.hasPercentage = true
  · rw [if_pos hp]
    apply listMean_bounds
    · intro hmap
      exact h1 (List.map_eq_nil_iff.mp hmap)
    · intro x hx
      obtain ⟨m, hm, rfl⟩ := List.mem_map.mp hx
      exact hbp hp m (List.mem_filter.mp hm).1
  · rw [if_neg hp]
    have hb := hbe (Bool.not_eq_true df.hasPercentage ▸ hp)
    have hmem : ∀ m ∈ df.rows.filter (fun m => m.course_code = code),
        0 ≤ m.earned ∧ m.earned ≤ m.max_possible :=
      fun m hm => hb m (List.mem_filter.mp hm).1
    by_cases hz : ((df.rows.filter (fun m => m.course_code = code)).map
        (fun m => m.max_possible)).sum = 0
    · rw [if_pos hz]
      norm_num
    rw [if_neg hz]
    have he0 : 0 ≤ ((df.rows.filter (fun m => m.course_code = code)).map
        (fun m => m.earned)).sum := by
      apply List.sum_nonneg
      intro x hx
      obtain ⟨m, hm, rfl⟩ := List.mem_map.mp hx
      exact (hmem m hm).1
    have hem : ((df.rows.filter (fun m => m.course_code = code)).map
          (fun m => m.earned)).sum ≤
        ((df.rows.filter (fun m => m.course_code = code)).map
          (fun m => m.max_possible)).sum := by
      apply List.sum_le_sum
      intro m hm
      exact (hmem m hm).2
    have hm0 : 0 < ((df.rows.filter (fun m => m.course_code = code)).map
        (fun m => m.max_possible)).sum := by
      rcases lt_or_eq_of_le (le_trans he0 hem) with h | h
      · exact h
      · exact absurd h.symm hz
    constructor
    · positivity
    · have hdiv : ((df.rows.filter (fun m => m.course_code = code)).map
            (fun m => m.earned)).sum /
          ((df.rows.filter (fun m => m.course_code = code)).map
            (fun m => m.max_possible)).sum ≤ 1 := by
        rw [div_le_one hm0]
        exact hem
      nlinarith [hdiv, hm0]

/-- Completion rate is always between 0 and 100. -/
theorem completion_rate_bounds :
    ∀ rows : List Assignment,
      0 ≤ calculate_completion_rate rows ∧ calculate_completion_rate rows ≤ 100 := by
  intro rows
  unfold calculate_completion_rate
  by_cases h : rows = []
  · rw [if_pos h]
    norm_num
  rw [if_neg h]
  have hlen : 0 < (rows.length : ℚ) := by
    have := List.length_pos.mpr h
    exact_mod_cast this
  rw [if_pos (by exact_mod_cast List.length_pos.mpr h)]
  constructor
  · positivity
  · rw [mul_comm]
    have hle : ((rows.filter (fun a => a.status = "completed")).length : ℚ) ≤ (rows.length : ℚ) := by
      exact_mod_cast List.length_filter_le _ rows
    calc 100 * (((rows.filter (fun a => a.status = "completed")).length : ℚ) / (rows.length : ℚ))
        ≤ 100 * 1 := by
          apply mul_le_mul_of_nonneg_left _ (by norm_num)
          rw [div_le_one hlen]
          exact hle
      _ = 100 := by norm_num

/-- Counterexample for C3: a stored percentage of 120 makes
calculate_carry_percentage return 120, outside the interval up to 100. -/
theorem C3_counterexample :
    calculate_carry_percentage "X" overPctDF = 120 ∧
    ¬ calculate_carry_percentage "X" overPctDF ≤ 100 := by
  constructor <;> norm_num [calculate_carry_percentage, overPctDF, listMean, List.filter]

/-- C3 (amended): completion rate is always in the interval from 0 to 100;
the weighted GPA is in the interval from 0 to 4 whenever every carry weight
is nonnegative; and the carry percentage is in the interval from 0 to 100
whenever the stored percentages (or the earned and max_possible pairs) are
inside the usual ranges. -/
theorem C3_in_range_amended :
    (∀ rows : List Assignment,
      0 ≤ calculate_completion_rate rows ∧ calculate_completion_rate rows ≤ 100) ∧
    (∀ df : CourseStatsDF, (∀ r ∈ df.rows, 0 ≤ r.carry_weight) →
      0 ≤ calculate_weighted_gpa df ∧ calculate_weighted_gpa df ≤ 4) ∧
    (∀ (code : String) (df : CarryMarksDF),
      (df.hasPercentage = true → ∀ m ∈ df.rows, 0 ≤ m.percentage ∧ m.percentage ≤ 100) →
      (df.hasPercentage = false → ∀ m ∈ df.rows, 0 ≤ m.earned ∧ m.earned ≤ m.max_possible) →
      0 ≤ calculate_carry_percentage code df ∧ calculate_carry_percentage code df ≤ 100) :=
  ⟨completion_rate_bounds, weighted_gpa_bounds, carry_percentage_bounds⟩

/-- Witness for C3 (amended): the bounds at concrete inputs. -/
theorem C3_in_range_amended_witness :
    (0 ≤ calculate_completion_rate exAssignments ∧
      calculate_completion_rate exAssignments ≤ 100) ∧
    (0 ≤ calculate_weighted_gpa exStatsDF ∧ calculate_weighted_gpa exStatsDF ≤ 4) ∧
    (0 ≤ calculate_carry_percentage "C1" singleMarkDF ∧
      calculate_carry_percentage "C1" singleMarkDF ≤ 100) := by
  refine ⟨C3_in_range_amended.1 exAssignments, C3_in_range_amended.2.1 exStatsDF ?_,
    C3_in_range_amended.2.2 "C1" singleMarkDF ?_ ?_⟩
  · intro r hr
    fin_cases hr <;> norm_num [exStatsDF]
  · intro h
    simp [singleMarkDF] at h
  · intro _ m hm
    fin_cases hm
    constructor <;> norm_num [singleMarkDF]


/-- C5: the division-by-zero situations all yield 0: a zero max_possible sum
in the earned-over-max branch of calculate_carry_percentage, a zero weight
total in calculate_weighted_gpa, and an empty assignment list in
calculate_completion_rate. -/
theorem C5_divzero_yields_zero :
    (∀ (code : String) (df : CarryMarksDF), df.hasPercentage = false →
      ((df.rows.filter (fun m => m.course_code = code)).map (fun m => m.max_possible)).sum = 0 →
      calculate_carry_percentage code df = 0) ∧
    (∀ df : CourseStatsDF, (df.rows.map (fun r => r.carry_weight)).sum = 0 →
      calculate_weighted_gpa df = 0) ∧
    calculate_completion_rate [] = 0 := by
  refine ⟨?_, ?_, rfl⟩
  · intro code df hpf hz
    unfold calculate_carry_percentage
    by_cases h0 : df.rows = []
    · rw [if_pos h0]
    rw [if_neg h0]
    by_cases h1 : df.rows.filter (fun m => m.course_code = code) = []
    · rw [if_pos h1]
    rw [if_neg h1]
    rw [if_neg (show ¬df.hasPercentage = true by simp [hpf])]
    rw [if_pos hz]
  · intro df hz
    unfold calculate_weighted_gpa
    by_cases h0 : df.rows = []
    · rw [if_pos h0]
    rw [if_neg h0]
    by_cases hu : (df.hasLetterGrade && df.hasCarryWeight) = true
    · simp only [hu, if_true]
      rw [if_neg (show ¬(df.rows.map (fun r => r.carry_weight)).sum > 0 by rw [hz]; norm_num)]
    · simp only [if_neg hu]
      norm_num

/-- Witness for C5: the zero cases at concrete inputs. -/
theorem C5_divzero_yields_zero_witness :
    calculate_carry_percentage "C1" zeroMaxDF = 0 ∧
    calculate_weighted_gpa zeroWeightStatsDF = 0 := by
  refine ⟨C5_divzero_yields_zero.1 "C1" zeroMaxDF rfl (by norm_num [zeroMaxDF, List.filter]),
    C5_divzero_yields_zero.2.1 zeroWeightStatsDF (by norm_num [zeroWeightStatsDF])⟩

/-- Counterexample for C6: a single assignment with an unparseable due date
makes get_weekly_workload fail as a whole instead of skipping the record. -/
theorem C6_weekly_workload_raises :
    get_weekly_workload [badAssignment] = Except.error "unparseable due_date" := rfl

/-- A record with an unparseable date leaves the overdue counters alone. -/
theorem stepOverdue_skip (today : Int) (acc : Nat × Nat) (a : Assignment)
    (h : a.due_date = none) : stepOverdue today acc a = acc := by
  unfold stepOverdue
  rw [h]
  by_cases hs : a.status = "pending"
  · rw [if_pos hs]
  · rw [if_neg hs]

/-- C6 (amended): calculate_days_until_due catches the parse failure and
returns 0, and the overdue and near-due counting of analytics_tab skips any
record with an unparseable date; but get_weekly_workload propagates a date
parse error to its caller instead of skipping the record. -/
theorem C6_local_date_handling_amended :
    (∀ now : Int, calculate_days_until_due none now = 0) ∧
    (∀ (rows : List Assignment) (today : Int) (a : Assignment), a.due_date = none →
      count_overdue_upcoming (a :: rows) today = count_overdue_upcoming rows today) ∧
    (∀ rows : List Assignment, (∃ a ∈ rows, a.due_date = none) →
      ∃ msg, get_weekly_workload rows = Except.error msg) := by
  refine ⟨fun _ => rfl, ?_, ?_⟩
  · intro rows today a h
    unfold count_overdue_upcoming
    rw [List.foldl_cons, stepOverdue_skip today (0, 0) a h]
  · intro rows hex
    obtain ⟨a, ha, hnone⟩ := hex
    have hne : rows ≠ [] := by
      intro h0
      rw [h0] at ha
      cases ha
    unfold get_weekly_workload
    rw [if_neg hne]
    rw [if_neg (show ¬rows.all (fun a => a.due_date.isSome) = true by
      intro hall
      have := List.all_eq_true.mp hall a ha
      rw [hnone] at this
      cases this)]
    exact ⟨_, rfl⟩

/-- Witness for C6 (amended): the parts at concrete inputs. -/
theorem C6_local_date_handling_amended_witness :
    calculate_days_until_due none 5 = 0 ∧
    count_overdue_upcoming (badAssignment :: exAssignments) 0 =
      count_overdue_upcoming exAssignments 0 ∧
    (∃ msg, get_weekly_workload [badAssignment] = Except.error msg) := by
  refine ⟨C6_local_date_handling_amended.1 5,
    C6_local_date_handling_amended.2.1 exAssignments 0 badAssignment rfl,
    C6_local_date_handling_amended.2.2 [badAssignment]
      ⟨badAssignment, List.mem_cons_self _ _, rfl⟩⟩

/-- Counterexample for C7: calculate_days_until_due and
calculate_time_to_deadline read the wall clock, so two calls on the same
snapshot at different instants return different results. -/
theorem C7_clock_dependence :
    calculate_days_until_due (some 10) 3 ≠ calculate_days_until_due (some 10) 5 ∧
    calculate_time_to_deadline [pendingAssignment] 3 ≠
      calculate_time_to_deadline [pendingAssignment] 5 := by
  constructor
  · decide
  · intro h
    simp [calculate_time_to_deadline, pendingAssignment, sortByKey, insertByKey,
      List.filter] at h

/-- C7 (amended): every analyzer result depends only on the snapshot and
the clock reading, so two calls with the same clock reading agree; shifting
the due date and the clock together leaves days-until-due unchanged. -/
theorem C7_determinism_amended :
    (∀ (rows : List Assignment) (now₁ now₂ : Int), now₁ = now₂ →
      calculate_time_to_deadline rows now₁ = calculate_time_to_deadline rows now₂) ∧
    (∀ (due : Option Int) (now₁ now₂ : Int), now₁ = now₂ →
      calculate_days_until_due due now₁ = calculate_days_until_due due now₂) ∧
    (∀ (due : Option Int) (now k : Int),
      calculate_days_until_due (due.map (fun d => d + k)) (now + k) =
        calculate_days_until_due due now) := by
  refine ⟨?_, ?_, ?_⟩
  · intro rows n1 n2 h
    rw [h]
  · intro due n1 n2 h
    rw [h]
  · intro due now k
    cases due with
    | none => rfl
    | some d =>
      simp only [Option.map_some', calculate_days_until_due]
      ring

/-- Witness for C7 (amended): the parts at concrete inputs. -/
theorem C7_determinism_amended_witness :
    calculate_time_to_deadline exAssignments 4 = calculate_time_to_deadline exAssignments 4 ∧
    calculate_days_until_due (some 9) 4 = calculate_days_until_due (some 9) 4 ∧
    calculate_days_until_due (some 12) 7 = calculate_days_until_due (some 9) 4 := by
  refine ⟨C7_determinism_amended.1 exAssignments 4 4 rfl,
    C7_determinism_amended.2.1 (some 9) 4 4 rfl, ?_⟩
  have h := C7_determinism_amended.2.2 (some 9) 4 3
  simpa using h

/-- C8: after delete_course at a valid index, no remaining carry mark,
assignment or final-exam record references the deleted course code. -/
theorem C8_delete_course_cascades :
    ∀ (s : Store) (index : Nat) (h : index < s.courses.length),
      (∀ r ∈ (delete_course s index).carry_marks,
        r.course_code ≠ some (s.courses.get ⟨index, h⟩).code) ∧
      (∀ r ∈ (delete_course s index).assignments,
        r.course_code ≠ some (s.courses.get ⟨index, h⟩).code) ∧
      (∀ r ∈ (delete_course s index).final_exams,
        r.course_code ≠ some (s.courses.get ⟨index, h⟩).code) := by
  intro s index h
  unfold delete_course
  rw [dif_pos h]
  refine ⟨?_, ?_, ?_⟩ <;>
    · intro r hr
      simp only [List.mem_filter] at hr
      simpa using hr.2

/-- Witness for C8: the cascade on a concrete store. -/
theorem C8_delete_course_cascades_witness :
    (∀ r ∈ (delete_course exStore 0).carry_marks, r.course_code ≠ some "BSD 1323") ∧
    (∀ r ∈ (delete_course exStore 0).assignments, r.course_code ≠ some "BSD 1323") ∧
    (∀ r ∈ (delete_course exStore 0).final_exams, r.course_code ≠ some "BSD 1323") :=
  C8_delete_course_cascades exStore 0 (by norm_num [exStore])

/-- C9: calculate_carry_percentage returns 0 when no mark matches the course
code; with a percentage column it returns the mean percentage of the
matching marks; without one it returns the earned sum over the max_possible
sum times 100, with 0 when that sum is 0; and the three concrete examples
hold, including 120 for a mark of 120 out of 100 (no clamp). -/
theorem C9_carry_percentage_characterization :
    (∀ (code : String) (df : CarryMarksDF),
      df.rows.filter (fun m => m.course_code = code) = [] →
      calculate_carry_percentage code df = 0) ∧
    (∀ (code : String) (df : CarryMarksDF), df.hasPercentage = true →
      df.rows.filter (fun m => m.course_code = code) ≠ [] →
      calculate_carry_percentage code df =
        listMean ((df.rows.filter (fun m => m.course_code = code)).map (fun m => m.percentage))) ∧
    (∀ (code : String) (df : CarryMarksDF), df.hasPercentage = false →
      df.rows.filter (fun m => m.course_code = code) ≠ [] →
      (((df.rows.filter (fun m => m.course_code = code)).map (fun m => m.max_possible)).sum = 0 →
        calculate_carry_percentage code df = 0) ∧
      (((df.rows.filter (fun m => m.course_code = code)).map (fun m => m.max_possible)).sum ≠ 0 →
        calculate_carry_percentage code df =
          ((df.rows.filter (fun m => m.course_code = code)).map (fun m => m.earned)).sum /
            ((df.rows.filter (fun m => m.course_code = code)).map (fun m => m.max_possible)).sum
            * 100)) ∧
    calculate_carry_percentage "X" emptyMarksDF = 0 ∧
    calculate_carry_percentage "C1" singleMarkDF = 90 ∧
    calculate_carry_percentage "C1" overMarkDF = 120 := by
  have hnil : ∀ (code : String) (df : CarryMarksDF),
      df.rows.filter (fun m => m.course_code = code) ≠ [] → df.rows ≠ [] := by
    intro code df h1 he
    apply h1
    rw [he]
    rfl
  refine ⟨?_, ?_, ?_, ?_, ?_, ?_⟩
  · intro code df h1
    unfold calculate_carry_percentage
    by_cases h0 : df.rows = []
    · rw [if_pos h0]
    rw [if_neg h0]
    rw [if_pos h1]
  · intro code df hp h1
    unfold calculate_carry_percentage
    rw [if_neg (hnil code df h1), if_neg h1, if_pos hp]
  · intro code df hp h1
    constructor
    · intro hz
      unfold calculate_carry_percentage
      rw [if_neg (hnil code df h1), if_neg h1,
        if_neg (show ¬df.hasPercentage = true by simp [hp]), if_pos hz]
    · intro hz
      unfold calculate_carry_percentage
      rw [if_neg (hnil code df h1), if_neg h1,
        if_neg (show ¬df.hasPercentage = true by simp [hp]), if_neg hz]
  · rfl
  · norm_num [calculate_carry_percentage, singleMarkDF, List.filter]
  · norm_num [calculate_carry_percentage, overMarkDF, List.filter]

/-- Witness for C9: the hypothesized branches at concrete frames. -/
theorem C9_carry_percentage_characterization_witness :
    calculate_carry_percentage "X" emptyMarksDF = 0 ∧
    calculate_carry_percentage "X" overPctDF =
      listMean ((overPctDF.rows.filter (fun m => m.course_code = "X")).map
        (fun m => m.percentage)) ∧
    calculate_carry_percentage "C1" zeroMaxDF = 0 ∧
    calculate_carry_percentage "C1" singleMarkDF =
      ((singleMarkDF.rows.filter (fun m => m.course_code = "C1")).map (fun m => m.earned)).sum /
        ((singleMarkDF.rows.filter (fun m => m.course_code = "C1")).map
          (fun m => m.max_possible)).sum * 100 := by
  refine ⟨?_, ?_, ?_, ?_⟩
  · exact C9_carry_percentage_characterization.1 "X" emptyMarksDF rfl
  · exact C9_carry_percentage_characterization.2.1 "X" overPctDF rfl
      (by norm_num [overPctDF, List.filter])
  · exact (C9_carry_percentage_characterization.2.2.1 "C1" zeroMaxDF rfl
      (by norm_num [zeroMaxDF, List.filter])).1 (by norm_num [zeroMaxDF, List.filter])
  · exact (C9_carry_percentage_characterization.2.2.1 "C1" singleMarkDF rfl
      (by norm_num [singleMarkDF, List.filter])).2 (by norm_num [singleMarkDF, List.filter])

end Predubud
